import Mathlib

/-!
# Verification of the cluster simulator and its static genetic algorithm

Shallow embedding of the simulator repository:

* `src/includes/job.h` — `Job`, `JobState`, `Job.set_pending`, the static
  id generator `id_gen_`;
* `src/include/cluster_simulation.h` — `EventItem` with its comparator
  `operator<`, the `Dispatcher` function object, `DISPATCH_FREQUENCY`;
* `src/static-genetic-algorithm/main.cpp` — the GA driver: argument
  parsing outcome, population loading check, the generation loop.

Times are modelled as natural numbers of milliseconds since the epoch
(the simulator's `ms = time_point<milliseconds>`; all times the program
constructs are nonnegative).  Code of the repository that is not part of
the given sources (the event queue container, `select_survivors`,
`load_population`, `increase_age`) is modelled from the specification and
marked as such in its doc comment.
-/

/-! ## Job (src/includes/job.h) -/

/-- The `JobState` enumeration from `src/includes/job.h`. -/
inductive JobState
  | PEND | RUN | DONE | EXIT | PSUSP | USUSP | SSUSP
  | POST_DONE | POST_ERR | UNKWN | WAIT | ZOMBI
  deriving DecidableEq, Repr

/-- The fields of `Job` that its state-transition methods touch:
`id`, `state` (initialised `WAIT`), `pend_start_time_` (zero-initialised;
the zero time point doubles as the "never pended" sentinel) and
`total_pending_duration`.  The scenario-bound data fields
(slots, memory, cpu time, queue reference…) play no role in the
verified operations and are omitted. -/
structure Job where
  id : Nat
  state : JobState := JobState.WAIT
  pend_start_time : Nat := 0
  total_pending_duration : Nat := 0
  deriving DecidableEq, Repr

namespace Job

/-- Transcription of `Job::set_pending(ms time)`: unconditionally sets `state = PEND`;
assigns `pend_start_time_ = time` only when `pend_start_time_` still
holds the zero-initialised value `ms{}`. -/
def set_pending (time : Nat) (j : Job) : Job :=
  let j' := { j with state := JobState.PEND }
  if j'.pend_start_time = 0 then { j' with pend_start_time := time } else j'

/-- A freshly constructed job with a given id: `state{ JobState::WAIT }`,
`pend_start_time_{}` zero-initialised. -/
def fresh (id : Nat) : Job := { id := id }

theorem set_pending_state (time : Nat) (j : Job) :
    (j.set_pending time).state = JobState.PEND := by
  unfold set_pending
  by_cases h : j.pend_start_time = 0 <;> simp [h]

theorem set_pending_id (time : Nat) (j : Job) :
    (j.set_pending time).id = j.id := by
  unfold set_pending
  by_cases h : j.pend_start_time = 0 <;> simp [h]

theorem set_pending_pend_start_of_zero (time : Nat) (j : Job)
    (h : j.pend_start_time = 0) :
    (j.set_pending time).pend_start_time = time := by
  unfold set_pending
  simp [h]

theorem set_pending_pend_start_of_ne_zero (time : Nat) (j : Job)
    (h : j.pend_start_time ≠ 0) :
    (j.set_pending time).pend_start_time = j.pend_start_time := by
  unfold set_pending
  simp [h]

end Job

/-! ## Static id generators (`Job::id_gen_`, `EventItem::id_gen_`)

`Job` initialises `id{ id_gen_++ }` from a static counter, and
`EventItem` initialises `id = id_gen_++` from its own inline static
counter.  `genIds start n` is the list of ids handed out by `n`
successive constructions when the counter currently holds `start`. -/

/-- Ids handed out by `n` successive `id_gen_++` draws starting at
`start`: each construction reads the counter and increments it. -/
def genIds (start : Nat) : Nat → List Nat
  | 0 => []
  | n + 1 => start :: genIds (start + 1) n

theorem genIds_mem_lt (start n : Nat) :
    ∀ i ∈ genIds start n, start ≤ i := by
  induction n generalizing start with
  | zero => intro i hi; simp [genIds] at hi
  | succ n ih =>
    intro i hi
    simp only [genIds, List.mem_cons] at hi
    rcases hi with rfl | hi
    · exact Nat.le_refl _
    · exact Nat.le_of_lt (Nat.lt_of_lt_of_le (Nat.lt_succ_self _) (ih _ i hi))

theorem genIds_pairwise_lt (start n : Nat) :
    (genIds start n).Pairwise (· < ·) := by
  induction n generalizing start with
  | zero => exact List.Pairwise.nil
  | succ n ih =>
    refine List.Pairwise.cons ?_ (ih (start + 1))
    intro i hi
    exact Nat.lt_of_lt_of_le (Nat.lt_succ_self _) (genIds_mem_lt (start + 1) n i hi)

/-! ## EventItem and the event queue order
(src/include/cluster_simulation.h) -/

/-- The enumeration `EventItem::Type` from `src/include/cluster_simulation.h`. -/
inductive EventType
  | SCENARIO | JOB_FINISHED | JOB_RESERVED | DISPATCH | LOG
  deriving DecidableEq, Repr

/-- The fields of `EventItem` that take part in the queue order and in
scheduling: `id`, `time`, `priority`, `type`.  The captured `action`
closure is opaque to the order and is not represented. -/
structure EventItem where
  id : Nat
  time : Nat
  priority : Nat
  type : EventType := EventType.SCENARIO
  deriving DecidableEq, Repr

namespace EventItem

/-- The comparator `EventItem::operator<` transcribed from the source
(`this` on the left, `a` on the right):

    return a.time == time
        ? a.priority < priority
        : a.time < time;
-/
def lt (this a : EventItem) : Prop :=
  if a.time = this.time then a.priority < this.priority else a.time < this.time

instance : DecidableRel lt := fun x a => by
  unfold lt; infer_instance

/-- An element the queue pops next: one that no other queued element
exceeds under `EventItem.lt`.  Modelled from the spec: the event queue
is a priority structure whose "ordering matches EventItem's comparator"
and whose pop removes the comparator's maximal element (the only reading
under which pops advance simulated time forward). -/
def maximalIn (e : EventItem) (l : List EventItem) : Prop :=
  ∀ f ∈ l, ¬ lt e f

instance (e : EventItem) (l : List EventItem) : Decidable (maximalIn e l) := by
  unfold maximalIn; infer_instance

/-- Direct consequence of the comparator: whatever the queue pops next
has minimal time, and among elements of that same time it has minimal
(not maximal) `priority` value. -/
theorem maximalIn_le (e : EventItem) (l : List EventItem)
    (h : maximalIn e l) :
    ∀ f ∈ l, e.time ≤ f.time ∧ (e.time = f.time → e.priority ≤ f.priority) := by
  intro f hf
  have hnl := h f hf
  unfold lt at hnl
  by_cases ht : f.time = e.time
  · simp only [ht, if_pos rfl] at hnl
    exact ⟨Nat.le_of_eq ht.symm, fun _ => Nat.le_of_not_lt hnl⟩
  · simp only [if_neg ht] at hnl
    refine ⟨Nat.le_of_not_lt hnl, fun he => absurd he.symm ht⟩

end EventItem

/-- Relation `PopSeq l s`: `s` is a possible sequence of pops that drains the
event multiset `l`, each pop removing an element that is maximal under
`EventItem.lt` among those still queued. -/
inductive PopSeq : List EventItem → List EventItem → Prop
  | nil : PopSeq [] []
  | cons {l s : List EventItem} (e : EventItem) (hmem : e ∈ l)
      (hmax : EventItem.maximalIn e l) (hs : PopSeq (l.erase e) s) :
      PopSeq l (e :: s)

theorem PopSeq.subset {l s : List EventItem} (h : PopSeq l s) :
    ∀ f ∈ s, f ∈ l := by
  induction h with
  | nil => intro f hf; simp at hf
  | cons e hmem hmax hs ih =>
    intro f hf
    rcases List.mem_cons.mp hf with rfl | hf
    · exact hmem
    · exact List.erase_subset _ _ (ih f hf)

/-- Along any pop sequence, times never decrease, and two pops at the
same time come out in order of increasing `priority` field value. -/
theorem PopSeq.pairwise {l s : List EventItem} (h : PopSeq l s) :
    s.Pairwise (fun e f =>
      e.time ≤ f.time ∧ (e.time = f.time → e.priority ≤ f.priority)) := by
  induction h with
  | nil => exact List.Pairwise.nil
  | cons e hmem hmax hs ih =>
    refine List.Pairwise.cons ?_ ih
    intro f hf
    exact EventItem.maximalIn_le e _ hmax f (List.erase_subset _ _ (hs.subset f hf))

/-! ## The Dispatcher (src/include/cluster_simulation.h, lines 204-251) -/

/-- Constant `DISPATCH_FREQUENCY` of `ClusterSimulation`: 1000 ms. -/
def DISPATCH_FREQUENCY : Nat := 1000

/-- One queue as the dispatcher sees it, standing in for the `Queue`
implementation that is outside the given sources: the value returned by
`q.dispatch()` and the value returned by `q.get_num_pending_jobs()`
after that call. -/
structure QueueStep where
  dispatch : Bool
  get_num_pending_jobs : Nat
  deriving DecidableEq, Repr

/-- Everything one invocation of `Dispatcher::operator()` reads and
writes: the observed cluster version, the dispatcher's remembered
version, the scenario's remaining entry count, the engine's pending-job
count, clock, and the `next_dispatch_reserved` flag. -/
structure DispatcherState where
  version : Nat
  latest_cluster_version : Nat
  scenario_count : Nat
  num_pending_jobs : Nat
  current_time : Nat
  next_dispatch_reserved : Bool
  deriving DecidableEq, Repr

/-- The outcome of one invocation of `Dispatcher::operator()`:
the updated state, the events it scheduled through `after_delay`
(as time, priority, type triples), how many queues had `dispatch()`
invoked on them, and whether `log_using_slots()` ran. -/
structure DispatcherOutcome where
  state : DispatcherState
  scheduled : List (Nat × Nat × EventType)
  queues_dispatched : Nat
  logged_slots : Bool
  deriving DecidableEq, Repr

/-- Transcription of `ClusterSimulation::Dispatcher::operator()`.
The per-queue work of the changed-version branch is supplied as the
list `queues` of `QueueStep`s, one per entry of `all_queues_`. -/
def dispatcherRun (s : DispatcherState) (queues : List QueueStep) :
    DispatcherOutcome :=
  if s.version = s.latest_cluster_version then
    if s.scenario_count = 0 ∧ s.num_pending_jobs = 0 then
      { state := { s with next_dispatch_reserved := false }
        scheduled := [], queues_dispatched := 0, logged_slots := false }
    else
      { state := s
        scheduled := [(s.current_time + DISPATCH_FREQUENCY, 1, EventType.DISPATCH)]
        queues_dispatched := 0, logged_slots := false }
  else
    let flag := queues.any (·.dispatch)
    if flag then
      { state := { s with
          latest_cluster_version := s.version
          num_pending_jobs := (queues.map (·.get_num_pending_jobs)).sum }
        scheduled := [(s.current_time + DISPATCH_FREQUENCY, 1, EventType.DISPATCH)]
        queues_dispatched := queues.length, logged_slots := true }
    else
      { state := { s with
          latest_cluster_version := 0
          next_dispatch_reserved := false }
        scheduled := [], queues_dispatched := queues.length, logged_slots := true }

/-! ## The static genetic algorithm
(src/static-genetic-algorithm/main.cpp)

The GA helper library (`genetic_algorithm.h`, `chromosome.h`,
`file_reader.h`) is not among the given sources; its pieces that the
claims need — `select_survivors`, `increase_age`, `load_population` —
are modelled from the specification below.  Fitness, a C++ `double`
compared only with `<`, is modelled as an integer; `fitness()` is a
cached pure attribute of a chromosome, so it appears as a plain field. -/

/-- The enumeration of chromosome origins from the spec
(`INITIAL`, `CROSSOVER`, `MUTATION`). -/
inductive ChromosomeType
  | INITIAL | CROSSOVER | MUTATION
  deriving DecidableEq, Repr

/-- A chromosome: gene vector, age, origin tag and cached fitness. -/
structure Chromosome where
  genes : List Int
  age : Nat := 0
  type : ChromosomeType := ChromosomeType.INITIAL
  fitness : Int
  deriving DecidableEq, Repr

namespace Chromosome

/-- Modelled from the spec: `increase_age(): age += 1`
(the method body is not among the given sources). -/
def increase_age (c : Chromosome) : Chromosome := { c with age := c.age + 1 }

theorem increase_age_fitness (c : Chromosome) :
    c.increase_age.fitness = c.fitness := rfl

theorem increase_age_age (c : Chromosome) :
    c.increase_age.age = c.age + 1 := rfl

end Chromosome

/-- Survivor-selection priority used by `select_survivors`
(modelled from the spec): higher fitness first, ties broken by lower
`age`; full ties are resolved by the stability of the sort, i.e. by
insertion order in the merged pool. -/
def survivorOrder (c d : Chromosome) : Prop :=
  d.fitness < c.fitness ∨ (c.fitness = d.fitness ∧ c.age ≤ d.age)

instance : DecidableRel survivorOrder := fun c d => by
  unfold survivorOrder; infer_instance

instance : IsTotal Chromosome survivorOrder where
  total c d := by
    unfold survivorOrder
    rcases lt_trichotomy c.fitness d.fitness with h | h | h
    · exact Or.inr (Or.inl h)
    · rcases Nat.le_total c.age d.age with ha | ha
      · exact Or.inl (Or.inr ⟨h, ha⟩)
      · exact Or.inr (Or.inr ⟨h.symm, ha⟩)
    · exact Or.inl (Or.inl h)

instance : IsTrans Chromosome survivorOrder where
  trans a b c hab hbc := by
    unfold survivorOrder at *
    rcases hab with h1 | ⟨h1, ha1⟩ <;> rcases hbc with h2 | ⟨h2, ha2⟩
    · exact Or.inl (h2.trans h1)
    · exact Or.inl (h2 ▸ h1)
    · exact Or.inl (h1 ▸ h2)
    · exact Or.inr ⟨h1.trans h2, ha1.trans ha2⟩

/-- Modelled from the spec: `select_survivors(population, offspring,
mutants)` merges the three pools and keeps the top
`NUM_POPULATION_TO_KEEP` by fitness (ties: lower age, then insertion
order, via a stable sort).  The function body is not among the given
sources; `n` stands for the compile-time `NUM_POPULATION_TO_KEEP`. -/
def select_survivors (n : Nat)
    (population offspring mutants : List Chromosome) : List Chromosome :=
  ((population ++ offspring ++ mutants).insertionSort survivorOrder).take n

/-- The best (maximum) cached fitness in a pool, `⊥` for an empty pool. -/
def maxFitness (l : List Chromosome) : WithBot Int :=
  (l.map Chromosome.fitness).maximum

theorem le_maxFitness_of_mem {c : Chromosome} {l : List Chromosome}
    (h : c ∈ l) : (c.fitness : WithBot Int) ≤ maxFitness l :=
  List.le_maximum_of_mem' (List.mem_map_of_mem Chromosome.fitness h)

theorem maxFitness_le {l : List Chromosome} {b : WithBot Int}
    (h : ∀ c ∈ l, (c.fitness : WithBot Int) ≤ b) : maxFitness l ≤ b := by
  unfold maxFitness
  rcases hm : (l.map Chromosome.fitness).maximum with _ | m
  · exact bot_le
  · have hmem : (m : Int) ∈ l.map Chromosome.fitness :=
      List.maximum_mem hm
    rcases List.mem_map.mp hmem with ⟨c, hc, hcm⟩
    exact hcm ▸ h c hc

/-- Any chromosome of the merged pool is dominated (in fitness) by the
head of the sorted pool, and that head survives whenever `1 ≤ n`. -/
theorem select_survivors_maxFitness (n : Nat) (hn : 1 ≤ n)
    (population offspring mutants : List Chromosome) :
    maxFitness population ≤
      maxFitness (select_survivors n population offspring mutants) := by
  refine maxFitness_le ?_
  intro c hc
  have hcpool : c ∈ population ++ offspring ++ mutants := by
    simp [hc]
  set pool := population ++ offspring ++ mutants with hpool
  have hcsorted : c ∈ pool.insertionSort survivorOrder :=
    (List.perm_insertionSort survivorOrder pool).symm.subset hcpool
  rcases hsort : pool.insertionSort survivorOrder with _ | ⟨hd, tl⟩
  · rw [hsort] at hcsorted; simp at hcsorted
  · have hsorted : List.Sorted survivorOrder (hd :: tl) :=
      hsort ▸ List.sorted_insertionSort survivorOrder pool
    have hhd_c : c = hd ∨ survivorOrder hd c := by
      rw [hsort] at hcsorted
      rcases List.mem_cons.mp hcsorted with rfl | hctl
      · exact Or.inl rfl
      · exact Or.inr (List.rel_of_sorted_cons hsorted c hctl)
    have hfit : c.fitness ≤ hd.fitness := by
      rcases hhd_c with rfl | hord
      · exact le_refl _
      · rcases hord with hlt | ⟨heq, _⟩
        · exact le_of_lt hlt
        · exact le_of_eq heq.symm
    have hhd_mem : hd ∈ select_survivors n population offspring mutants := by
      unfold select_survivors
      rw [← hpool, hsort]
      rcases n with _ | n
      · exact absurd hn (by omega)
      · exact List.mem_cons_self hd _
    calc (c.fitness : WithBot Int) ≤ (hd.fitness : WithBot Int) := by
          exact_mod_cast hfit
      _ ≤ _ := le_maxFitness_of_mem hhd_mem

/-- Transcription of the `std::max_element` call of the generation loop
(comparator `a.fitness() < b.fitness()`): the first element of maximal
fitness, `none` on an empty range. -/
def max_element : List Chromosome → Option Chromosome
  | [] => none
  | c :: cs => some (cs.foldl (fun acc d => if acc.fitness < d.fitness then d else acc) c)

theorem max_element_isSome {l : List Chromosome} (h : l ≠ []) :
    (max_element l).isSome = true := by
  cases l with
  | nil => exact absurd rfl h
  | cons c cs => simp [max_element]

theorem max_element_foldl_spec (cs : List Chromosome) (c : Chromosome) :
    c.fitness ≤ (cs.foldl (fun acc d => if acc.fitness < d.fitness then d else acc) c).fitness ∧
      ∀ d ∈ cs,
        d.fitness ≤ (cs.foldl (fun acc d => if acc.fitness < d.fitness then d else acc) c).fitness := by
  induction cs generalizing c with
  | nil => exact ⟨le_refl _, by simp⟩
  | cons d cs ih =>
    simp only [List.foldl_cons]
    by_cases h : c.fitness < d.fitness
    · rw [if_pos h]
      refine ⟨le_of_lt (lt_of_lt_of_le h (ih d).1), ?_⟩
      intro e he
      rcases List.mem_cons.mp he with rfl | he
      · exact (ih e).1
      · exact (ih d).2 e he
    · rw [if_neg h]
      refine ⟨(ih c).1, ?_⟩
      intro e he
      rcases List.mem_cons.mp he with rfl | he
      · exact le_trans (le_of_not_lt h) (ih c).1
      · exact (ih c).2 e he

theorem max_element_spec {l : List Chromosome} {b : Chromosome}
    (h : max_element l = some b) : ∀ c ∈ l, c.fitness ≤ b.fitness := by
  cases l with
  | nil => simp [max_element] at h
  | cons c cs =>
    simp only [max_element, Option.some.injEq] at h
    intro e he
    rcases List.mem_cons.mp he with rfl | he
    · exact h ▸ (max_element_foldl_spec cs e).1
    · exact h ▸ (max_element_foldl_spec cs c).2 e he

/-- The mutable state the generation loop of `main` threads from one
iteration to the next: `population`, `mutants`, the `current_best`
pointer (`none` models the pointer before its first assignment), the
`output_buffer` epoch record as (iteration, best fitness) pairs, and
the iterations at which `save_population` ran. -/
structure GAState where
  population : List Chromosome
  mutants : List Chromosome
  current_best : Option Chromosome := none
  epoch_record : List (Nat × Int) := []
  saved_iters : List Nat := []
  deriving DecidableEq, Repr

/-- One iteration of the generation loop of `main`
(src/static-genetic-algorithm/main.cpp, lines 72-115).  The GA
operators whose bodies are outside the given sources enter as
parameters: `genOff` for `generate_offspring_parallel` and `mutFn` for
`get_mutants` (both called on the population and then on the
offspring); `calculate_fitness_parallel` is the identity here because
fitness is modelled as an intrinsic chromosome field.  `n` is
`NUM_POPULATION_TO_KEEP` and `save_interval` is `SAVE_INTERVAL`. -/
def gaIter (genOff mutFn : List Chromosome → List Chromosome)
    (n save_interval : Nat) (iter : Nat) (s : GAState) : GAState :=
  let offspring := genOff s.population
  let mutants := s.mutants ++ mutFn s.population ++ mutFn offspring
  let pop' := select_survivors n s.population offspring mutants
  let best := max_element pop'
  { population := pop'.map Chromosome.increase_age
    mutants := []
    current_best := match best with
      | some b => some b
      | none => s.current_best
    epoch_record := match best with
      | some b => s.epoch_record ++ [(iter, b.fitness)]
      | none => s.epoch_record
    saved_iters := if iter % save_interval = 0
      then s.saved_iters ++ [iter] else s.saved_iters }

/-- The whole generation loop: `for (iter = 0; iter < num_iterations; ++iter)`. -/
def gaLoop (genOff mutFn : List Chromosome → List Chromosome)
    (n save_interval num_iterations : Nat) (s : GAState) : GAState :=
  (List.range num_iterations).foldl
    (fun st iter => gaIter genOff mutFn n save_interval iter st) s

theorem select_survivors_ne_nil (n : Nat) (hn : 1 ≤ n)
    (population offspring mutants : List Chromosome)
    (hpop : population ≠ []) :
    select_survivors n population offspring mutants ≠ [] := by
  unfold select_survivors
  intro hcontra
  have hperm := List.perm_insertionSort survivorOrder
    (population ++ offspring ++ mutants)
  rcases hs : (population ++ offspring ++ mutants).insertionSort survivorOrder with
    _ | ⟨hd, tl⟩
  · rw [hs] at hperm
    have : population ++ offspring ++ mutants = [] := hperm.symm.eq_nil
    simp [List.append_eq_nil] at this
    exact hpop this.1
  · rw [hs] at hcontra
    rcases n with _ | n
    · exact absurd hn (by omega)
    · simp at hcontra

theorem gaIter_population_ne_nil (genOff mutFn : List Chromosome → List Chromosome)
    (n save_interval iter : Nat) (s : GAState)
    (hn : 1 ≤ n) (hpop : s.population ≠ []) :
    (gaIter genOff mutFn n save_interval iter s).population ≠ [] := by
  unfold gaIter
  simp only [ne_eq, List.map_eq_nil_iff]
  exact select_survivors_ne_nil n hn _ _ _ hpop

theorem gaIter_current_best_isSome (genOff mutFn : List Chromosome → List Chromosome)
    (n save_interval iter : Nat) (s : GAState)
    (hn : 1 ≤ n) (hpop : s.population ≠ []) :
    ((gaIter genOff mutFn n save_interval iter s).current_best).isSome = true := by
  unfold gaIter
  simp only
  rcases hb : max_element (select_survivors n s.population (genOff s.population)
      (s.mutants ++ mutFn s.population ++ mutFn (genOff s.population))) with _ | b
  · rcases hsel : select_survivors n s.population (genOff s.population)
        (s.mutants ++ mutFn s.population ++ mutFn (genOff s.population)) with _ | ⟨c, cs⟩
    · exact absurd hsel (select_survivors_ne_nil n hn _ _ _ hpop)
    · rw [hsel] at hb
      simp [max_element] at hb
  · simp [hb]

theorem gaIter_current_best_preserved (genOff mutFn : List Chromosome → List Chromosome)
    (n save_interval iter : Nat) (s : GAState)
    (h : s.current_best.isSome = true) :
    ((gaIter genOff mutFn n save_interval iter s).current_best).isSome = true := by
  unfold gaIter
  simp only
  rcases hb : max_element (select_survivors n s.population (genOff s.population)
      (s.mutants ++ mutFn s.population ++ mutFn (genOff s.population))) with _ | b
  · simpa using h
  · simp

/-! ## The GA driver entry point (src/static-genetic-algorithm/main.cpp) -/

/-- Modelled from the spec: the population blob read by
`load_population` (whose body, in `file_reader.h`, is not among the
given sources).  The header carries a chromosome count and a
`gene_count`; the records follow.  Well-formedness of the blob
(`records.length = count`, each record's genes of length `gene_count`)
is a property of concrete files, not baked into the type. -/
structure PopulationFile where
  count : Nat
  gene_count : Nat
  records : List Chromosome
  deriving DecidableEq, Repr

/-- Modelled from the spec: `load_population(path)` decodes the blob
into its chromosome records. -/
def load_population (f : PopulationFile) : List Chromosome := f.records

/-- The observable outcome of one run of the GA driver process:
lines written to standard output, the argument of an explicit `exit`
call (`none` when `main` runs to its end, which yields process exit
status 0), how many generation-loop iterations ran, and the value of
`current_best` at the final `current_best->save(...)` (`none` models
the pointer still being uninitialised there). -/
structure DriverResult where
  output : List String
  exit_code : Option Nat
  generations_run : Nat
  current_best_at_save : Option Chromosome
  deriving Repr

/-- Transcription of `main` from `src/static-genetic-algorithm/main.cpp`.

Parameters standing for collaborators outside the given sources:
`parse` is the outcome of `program.parse_args` (`Except.error` when it
threw `std::runtime_error`; `Except.ok path` gives the `--population`
value, `""` by default); `fileAt` maps a path to the blob
`load_population` reads; `initGen` is the pair written by
`generate_initial_population`; `genOff` and `mutFn` are as in `gaIter`.

`num_genes` is the compile-time gene count of `Chromosome`; note that
`main` never consults it (nor any `gene_count`): its compatibility
check compares only `population_vector.size()` with
`NUM_POPULATION_TO_KEEP` (`n`). -/
def gaDriver (parse : Except String String)
    (fileAt : String → PopulationFile)
    (initGen : List Chromosome × List Chromosome)
    (genOff mutFn : List Chromosome → List Chromosome)
    (num_genes n num_iterations save_interval : Nat) : DriverResult :=
  match parse with
  | Except.error msg =>
      -- catch block: print err.what(), print help, exit(0)
      { output := [msg, "usage: static-genetic-algorithm [-p POPULATION]"]
        exit_code := some 0
        generations_run := 0
        current_best_at_save := none }
  | Except.ok path =>
      if path ≠ "" ∧ n ≠ (load_population (fileAt path)).length then
        -- "Incompatible population." branch: message, exit(0)
        { output := ["Incompatible population."]
          exit_code := some 0
          generations_run := 0
          current_best_at_save := none }
      else
        let pop0 := if path ≠ "" then load_population (fileAt path) else initGen.1
        let off0 := if path ≠ "" then genOff pop0 else initGen.2
        -- select_survivors before the loop (line 67), then the loop
        let s0 : GAState :=
          { population := select_survivors n pop0 off0 []
            mutants := [] }
        let sF := gaLoop genOff mutFn n save_interval num_iterations s0
        { output := (List.range num_iterations).map
            (fun iter => "Epoch " ++ toString (iter + 1))
          exit_code := none
          generations_run := num_iterations
          current_best_at_save := sF.current_best }

/-! ## Claim theorems -/

/-- C1, counterexample.  Two events share time 5; one has priority 0,
the other priority 2.  The claim predicts the priority-2 event pops
first, but under `EventItem::operator<` it is the priority-0 event that
is maximal (poppable), and the priority-2 event is not: the comparator
puts the *lower* priority value first on time ties. -/
theorem event_tie_higher_priority_not_first :
    EventItem.maximalIn ⟨1, 5, 0, EventType.SCENARIO⟩
      [⟨1, 5, 0, EventType.SCENARIO⟩, ⟨2, 5, 2, EventType.JOB_FINISHED⟩] ∧
    ¬ EventItem.maximalIn ⟨2, 5, 2, EventType.JOB_FINISHED⟩
      [⟨1, 5, 0, EventType.SCENARIO⟩, ⟨2, 5, 2, EventType.JOB_FINISHED⟩] ∧
    (2 : Nat) > 0 := by
  refine ⟨by decide, by decide, by decide⟩

/-- C1, amended.  Any sequence of pops of `EventItem::operator<`-maximal
elements is non-decreasing in time, and among events with equal time the
event with the *lower* priority value is popped first. -/
theorem event_queue_pop_order {l s : List EventItem} (h : PopSeq l s) :
    s.Pairwise (fun e f =>
      e.time ≤ f.time ∧ (e.time = f.time → e.priority ≤ f.priority)) :=
  h.pairwise

/-- Witness for C1 on a concrete queue: three events, two of them tied
at time 5, are popped as time 3, then (5, priority 0), then
(5, priority 2). -/
theorem event_queue_pop_order_witness :
    List.Pairwise (fun e f : EventItem =>
        e.time ≤ f.time ∧ (e.time = f.time → e.priority ≤ f.priority))
      [⟨3, 3, 7, EventType.LOG⟩, ⟨1, 5, 0, EventType.SCENARIO⟩,
        ⟨2, 5, 2, EventType.JOB_FINISHED⟩] := by
  refine event_queue_pop_order (l :=
    [⟨1, 5, 0, EventType.SCENARIO⟩, ⟨2, 5, 2, EventType.JOB_FINISHED⟩,
      ⟨3, 3, 7, EventType.LOG⟩]) ?_
  refine PopSeq.cons _ (by decide) (by decide) ?_
  show PopSeq [⟨1, 5, 0, EventType.SCENARIO⟩, ⟨2, 5, 2, EventType.JOB_FINISHED⟩] _
  refine PopSeq.cons _ (by decide) (by decide) ?_
  show PopSeq [⟨2, 5, 2, EventType.JOB_FINISHED⟩] _
  refine PopSeq.cons _ (by decide) (by decide) ?_
  show PopSeq [] []
  exact PopSeq.nil

/-- C2.  When the cluster version equals the dispatcher's last-observed
version: with the scenario exhausted and no pending jobs, the dispatcher
clears `next_dispatch_reserved`, schedules nothing and dispatches no
queue; otherwise it schedules exactly one DISPATCH event at
`current_time + DISPATCH_FREQUENCY` with priority 1, dispatches no
queue, and leaves the state (including the flag) unchanged. -/
theorem dispatcher_version_unchanged (s : DispatcherState)
    (queues : List QueueStep) (hv : s.version = s.latest_cluster_version) :
    (s.scenario_count = 0 ∧ s.num_pending_jobs = 0 →
      (dispatcherRun s queues).state.next_dispatch_reserved = false ∧
      (dispatcherRun s queues).scheduled = [] ∧
      (dispatcherRun s queues).queues_dispatched = 0) ∧
    (¬ (s.scenario_count = 0 ∧ s.num_pending_jobs = 0) →
      (dispatcherRun s queues).scheduled =
        [(s.current_time + DISPATCH_FREQUENCY, 1, EventType.DISPATCH)] ∧
      (dispatcherRun s queues).queues_dispatched = 0 ∧
      (dispatcherRun s queues).state = s) := by
  constructor
  · intro hq
    unfold dispatcherRun
    simp [hv, hq]
  · intro hq
    unfold dispatcherRun
    simp [hv, hq]

/-- Witness for C2: at version 3 = last-observed 3, an idle engine
(scenario empty, no pending jobs) at time 500 clears the flag and
schedules nothing; a busy engine (7 pending jobs) reschedules one
DISPATCH event at 500 + 1000 with priority 1. -/
theorem dispatcher_version_unchanged_witness :
    ((dispatcherRun ⟨3, 3, 0, 0, 500, true⟩ []).state.next_dispatch_reserved = false ∧
      (dispatcherRun ⟨3, 3, 0, 0, 500, true⟩ []).scheduled = [] ∧
      (dispatcherRun ⟨3, 3, 0, 0, 500, true⟩ []).queues_dispatched = 0) ∧
    ((dispatcherRun ⟨3, 3, 0, 7, 500, true⟩ []).scheduled =
        [(1500, 1, EventType.DISPATCH)] ∧
      (dispatcherRun ⟨3, 3, 0, 7, 500, true⟩ []).queues_dispatched = 0 ∧
      (dispatcherRun ⟨3, 3, 0, 7, 500, true⟩ []).state = ⟨3, 3, 0, 7, 500, true⟩) := by
  constructor
  · exact (dispatcher_version_unchanged ⟨3, 3, 0, 0, 500, true⟩ [] rfl).1 ⟨rfl, rfl⟩
  · exact (dispatcher_version_unchanged ⟨3, 3, 0, 7, 500, true⟩ [] rfl).2 (by decide)

/-- C6, counterexample.  A first `set_pending(0)` leaves
`pend_start_time_` at the zero sentinel, so the second call
`set_pending(5)` changes the recorded value from 0 to 5 — a later call
did not leave `pend_start_time` unchanged. -/
theorem set_pending_second_call_changes_record :
    (((Job.fresh 0).set_pending 0).set_pending 5).pend_start_time = 5 ∧
    ((Job.fresh 0).set_pending 0).pend_start_time = 0 ∧
    (((Job.fresh 0).set_pending 0).set_pending 5).pend_start_time ≠
      ((Job.fresh 0).set_pending 0).pend_start_time := by
  refine ⟨by decide, by decide, by decide⟩

/-- C6, amended.  Every `set_pending` call sets the state to `PEND`;
and provided the first call's time is nonzero (distinct from the
`ms{}` sentinel), that first call records `pend_start_time` and any
later call leaves the recorded value unchanged. -/
theorem set_pending_first_call_records (j : Job) (t t' : Nat)
    (h0 : j.pend_start_time = 0) (ht : t ≠ 0) :
    (j.set_pending t).state = JobState.PEND ∧
    (j.set_pending t).pend_start_time = t ∧
    ((j.set_pending t).set_pending t').pend_start_time = t ∧
    ((j.set_pending t).set_pending t').state = JobState.PEND := by
  have h1 : (j.set_pending t).pend_start_time = t :=
    Job.set_pending_pend_start_of_zero t j h0
  refine ⟨Job.set_pending_state t j, h1, ?_, Job.set_pending_state t' _⟩
  rw [Job.set_pending_pend_start_of_ne_zero t' _ (by rw [h1]; exact ht), h1]

/-- Witness for C6: a fresh job, first call at time 3, second at 9. -/
theorem set_pending_first_call_records_witness :
    ((Job.fresh 0).set_pending 3).state = JobState.PEND ∧
    ((Job.fresh 0).set_pending 3).pend_start_time = 3 ∧
    (((Job.fresh 0).set_pending 3).set_pending 9).pend_start_time = 3 ∧
    (((Job.fresh 0).set_pending 3).set_pending 9).state = JobState.PEND :=
  set_pending_first_call_records (Job.fresh 0) 3 9 (by decide) (by decide)

/-- C10.  The zero time point is the "not yet pending" sentinel: a
first `set_pending(0)` leaves `pend_start_time` equal to the sentinel
and a later `set_pending(t2)` with `t2 > t1` overwrites it, so after
the two calls the recorded pend start equals the first call's time
exactly when that time is strictly after the epoch. -/
theorem pend_start_sentinel (id t1 t2 : Nat) (h : t1 < t2) :
    (t1 = 0 →
      ((Job.fresh id).set_pending t1).pend_start_time = 0 ∧
      (((Job.fresh id).set_pending t1).set_pending t2).pend_start_time = t2) ∧
    ((((Job.fresh id).set_pending t1).set_pending t2).pend_start_time = t1 ↔
      0 < t1) := by
  have hfresh : (Job.fresh id).pend_start_time = 0 := rfl
  have h1 : ((Job.fresh id).set_pending t1).pend_start_time = t1 :=
    Job.set_pending_pend_start_of_zero t1 _ hfresh
  by_cases ht1 : t1 = 0
  · subst ht1
    have h2 : (((Job.fresh id).set_pending 0).set_pending t2).pend_start_time = t2 :=
      Job.set_pending_pend_start_of_zero t2 _ h1
    refine ⟨fun _ => ⟨h1, h2⟩, ?_⟩
    rw [h2]
    constructor
    · intro hc; omega
    · intro hc; omega
  · have h2 : (((Job.fresh id).set_pending t1).set_pending t2).pend_start_time = t1 := by
      rw [Job.set_pending_pend_start_of_ne_zero t2 _ (by rw [h1]; exact ht1), h1]
    refine ⟨fun hc => absurd hc ht1, ?_⟩
    rw [h2]
    simp [Nat.pos_of_ne_zero ht1]

/-- Witness for C10 at `t1 = 0 < t2 = 5`: the sentinel survives the
first call, the second call overwrites it, and the final record does
not equal the first call's time 0. -/
theorem pend_start_sentinel_witness :
    (((Job.fresh 0).set_pending 0).pend_start_time = 0 ∧
      (((Job.fresh 0).set_pending 0).set_pending 5).pend_start_time = 5) ∧
    ((((Job.fresh 0).set_pending 0).set_pending 5).pend_start_time = 0 ↔
      0 < 0) :=
  ⟨(pend_start_sentinel 0 0 5 (by decide)).1 rfl,
    (pend_start_sentinel 0 0 5 (by decide)).2⟩

/-- C8.  Job ids drawn from the static `Job::id_gen_` counter are
strictly increasing over the construction sequence, and the ids of any
subset of the events constructed from `EventItem::id_gen_` (in
particular those belonging to one engine instance) are pairwise
distinct. -/
theorem id_generation_monotone_unique (jstart jn estart en : Nat)
    (engineEvents : List Nat)
    (hsub : List.Sublist engineEvents (genIds estart en)) :
    (genIds jstart jn).Pairwise (· < ·) ∧
    engineEvents.Pairwise (· ≠ ·) :=
  ⟨genIds_pairwise_lt jstart jn,
    (((genIds_pairwise_lt estart en).imp (fun h => Nat.ne_of_lt h)).sublist hsub)⟩

/-- Witness for C8: four event constructions starting at counter 5
yield ids 5, 6, 7, 8; the engine holding events 5 and 7 sees distinct
ids, and three job constructions from counter 0 yield 0 < 1 < 2. -/
theorem id_generation_monotone_unique_witness :
    (genIds 0 3).Pairwise (· < ·) ∧
    List.Pairwise (· ≠ ·) [5, 7] :=
  id_generation_monotone_unique 0 3 5 4 [5, 7] (by decide)

theorem max_element_foldl_mem (cs : List Chromosome) (c : Chromosome) :
    cs.foldl (fun acc d => if acc.fitness < d.fitness then d else acc) c = c ∨
      cs.foldl (fun acc d => if acc.fitness < d.fitness then d else acc) c ∈ cs := by
  induction cs generalizing c with
  | nil => exact Or.inl rfl
  | cons d cs ih =>
    simp only [List.foldl_cons]
    by_cases h : c.fitness < d.fitness
    · rw [if_pos h]
      rcases ih d with h' | h'
      · rw [h']; exact Or.inr (List.mem_cons_self d cs)
      · exact Or.inr (List.mem_cons_of_mem d h')
    · rw [if_neg h]
      rcases ih c with h' | h'
      · exact Or.inl h'
      · exact Or.inr (List.mem_cons_of_mem d h')

theorem max_element_mem {l : List Chromosome} {b : Chromosome}
    (h : max_element l = some b) : b ∈ l := by
  cases l with
  | nil => simp [max_element] at h
  | cons c cs =>
    simp only [max_element, Option.some.injEq] at h
    rcases max_element_foldl_mem cs c with h' | h'
    · rw [← h, h']; exact List.mem_cons_self c cs
    · rw [← h]; exact List.mem_cons_of_mem c h'

theorem maxFitness_map_increase_age (l : List Chromosome) :
    maxFitness (l.map Chromosome.increase_age) = maxFitness l := by
  unfold maxFitness
  rw [List.map_map]
  rfl

theorem max_element_maxFitness {l : List Chromosome} {b : Chromosome}
    (h : max_element l = some b) : maxFitness l = (b.fitness : WithBot Int) := by
  refine le_antisymm ?_ (le_maxFitness_of_mem (max_element_mem h))
  refine maxFitness_le ?_
  intro c hc
  exact_mod_cast max_element_spec h c hc

/-- C3.  One GA generation step never lowers the best fitness: the old
population is part of the pool `select_survivors` keeps the top-`n` of
(spec-modelled elitist merge), and ageing does not change fitness, so
`max_fitness(population_k) ≥ max_fitness(population_{k-1})`. -/
theorem ga_monotone_best (genOff mutFn : List Chromosome → List Chromosome)
    (n save_interval iter : Nat) (s : GAState) (hn : 1 ≤ n) :
    maxFitness s.population ≤
      maxFitness (gaIter genOff mutFn n save_interval iter s).population := by
  have hpop : (gaIter genOff mutFn n save_interval iter s).population =
      (select_survivors n s.population (genOff s.population)
        (s.mutants ++ mutFn s.population ++ mutFn (genOff s.population))).map
        Chromosome.increase_age := rfl
  rw [hpop, maxFitness_map_increase_age]
  exact select_survivors_maxFitness n hn s.population _ _

/-- Witness for C3: a singleton population of fitness 7, trivial
offspring and mutant generators, `n = 1`. -/
theorem ga_monotone_best_witness :
    maxFitness [⟨[], 0, ChromosomeType.INITIAL, 7⟩] ≤
      maxFitness ((gaIter (fun _ => []) (fun _ => []) 1 2 0
        ⟨[⟨[], 0, ChromosomeType.INITIAL, 7⟩], [], none, [], []⟩).population) :=
  ga_monotone_best (fun _ => []) (fun _ => []) 1 2 0
    ⟨[⟨[], 0, ChromosomeType.INITIAL, 7⟩], [], none, [], []⟩ (by decide)

/-- C7.  One generation-loop iteration: after survivor selection the
mutants are cleared, every population member's age rises by exactly
one, `(iter, best fitness)` is appended to the epoch record (the
recorded fitness being the population maximum), and the population is
persisted exactly when `SAVE_INTERVAL` divides the iteration index. -/
theorem ga_generation_bookkeeping
    (genOff mutFn : List Chromosome → List Chromosome)
    (n save_interval iter : Nat) (s : GAState) (b : Chromosome)
    (hb : max_element (select_survivors n s.population (genOff s.population)
      (s.mutants ++ mutFn s.population ++ mutFn (genOff s.population))) = some b)
    (hsi : 0 < save_interval) :
    (gaIter genOff mutFn n save_interval iter s).mutants = [] ∧
    (gaIter genOff mutFn n save_interval iter s).population.map Chromosome.age =
      (select_survivors n s.population (genOff s.population)
        (s.mutants ++ mutFn s.population ++ mutFn (genOff s.population))).map
        (fun c => c.age + 1) ∧
    (gaIter genOff mutFn n save_interval iter s).epoch_record =
      s.epoch_record ++ [(iter, b.fitness)] ∧
    maxFitness (select_survivors n s.population (genOff s.population)
      (s.mutants ++ mutFn s.population ++ mutFn (genOff s.population))) =
      (b.fitness : WithBot Int) ∧
    (save_interval ∣ iter →
      (gaIter genOff mutFn n save_interval iter s).saved_iters =
        s.saved_iters ++ [iter]) ∧
    (¬ save_interval ∣ iter →
      (gaIter genOff mutFn n save_interval iter s).saved_iters = s.saved_iters) := by
  refine ⟨rfl, ?_, ?_, max_element_maxFitness hb, ?_, ?_⟩
  · show ((select_survivors n s.population (genOff s.population)
        (s.mutants ++ mutFn s.population ++ mutFn (genOff s.population))).map
        Chromosome.increase_age).map Chromosome.age = _
    rw [List.map_map]
    rfl
  · show (match max_element (select_survivors n s.population (genOff s.population)
        (s.mutants ++ mutFn s.population ++ mutFn (genOff s.population))) with
      | some b => s.epoch_record ++ [(iter, b.fitness)]
      | none => s.epoch_record) = _
    rw [hb]
  · intro hdvd
    obtain ⟨k, rfl⟩ := hdvd
    show (if save_interval * k % save_interval = 0
      then s.saved_iters ++ [save_interval * k] else s.saved_iters) = _
    rw [if_pos (Nat.mul_mod_right save_interval k)]
  · intro hdvd
    show (if iter % save_interval = 0 then s.saved_iters ++ [iter] else s.saved_iters) = _
    rw [if_neg (fun hc => hdvd (Nat.dvd_of_mod_eq_zero hc))]

/-- Witness for C7: one population member of fitness 7, iteration 1,
`SAVE_INTERVAL = 2` (1 is not a multiple, so no save happens). -/
theorem ga_generation_bookkeeping_witness :
    (gaIter (fun _ => []) (fun _ => []) 1 2 1
      ⟨[⟨[], 0, ChromosomeType.INITIAL, 7⟩], [], none, [], []⟩).mutants = [] ∧
    (gaIter (fun _ => []) (fun _ => []) 1 2 1
      ⟨[⟨[], 0, ChromosomeType.INITIAL, 7⟩], [], none, [], []⟩).population.map
        Chromosome.age =
      (select_survivors 1 [⟨[], 0, ChromosomeType.INITIAL, 7⟩] [] []).map
        (fun c => c.age + 1) ∧
    (gaIter (fun _ => []) (fun _ => []) 1 2 1
      ⟨[⟨[], 0, ChromosomeType.INITIAL, 7⟩], [], none, [], []⟩).epoch_record =
      [] ++ [(1, (7 : Int))] ∧
    maxFitness (select_survivors 1 [⟨[], 0, ChromosomeType.INITIAL, 7⟩] [] []) =
      ((7 : Int) : WithBot Int) ∧
    (gaIter (fun _ => []) (fun _ => []) 1 2 1
      ⟨[⟨[], 0, ChromosomeType.INITIAL, 7⟩], [], none, [], []⟩).saved_iters = [] := by
  have h := ga_generation_bookkeeping (fun _ => []) (fun _ => []) 1 2 1
    ⟨[⟨[], 0, ChromosomeType.INITIAL, 7⟩], [], none, [], []⟩
    ⟨[], 0, ChromosomeType.INITIAL, 7⟩ (by decide) (by decide)
  exact ⟨h.1, h.2.1, h.2.2.1, h.2.2.2.1, h.2.2.2.2.2 (by decide)⟩

theorem gaLoop_zero (genOff mutFn : List Chromosome → List Chromosome)
    (n save_interval : Nat) (s : GAState) :
    gaLoop genOff mutFn n save_interval 0 s = s := rfl

theorem gaLoop_succ (genOff mutFn : List Chromosome → List Chromosome)
    (n save_interval k : Nat) (s : GAState) :
    gaLoop genOff mutFn n save_interval (k + 1) s =
      gaIter genOff mutFn n save_interval k
        (gaLoop genOff mutFn n save_interval k s) := by
  unfold gaLoop
  rw [List.range_succ, List.foldl_append]
  rfl

theorem gaLoop_population_ne_nil (genOff mutFn : List Chromosome → List Chromosome)
    (n save_interval ni : Nat) (s : GAState)
    (hn : 1 ≤ n) (hpop : s.population ≠ []) :
    (gaLoop genOff mutFn n save_interval ni s).population ≠ [] := by
  induction ni with
  | zero => exact hpop
  | succ k ih =>
    rw [gaLoop_succ]
    exact gaIter_population_ne_nil genOff mutFn n save_interval k _ hn ih

theorem gaLoop_current_best_isSome (genOff mutFn : List Chromosome → List Chromosome)
    (n save_interval ni : Nat) (s : GAState)
    (hn : 1 ≤ n) (hpop : s.population ≠ []) (hni : 1 ≤ ni) :
    ((gaLoop genOff mutFn n save_interval ni s).current_best).isSome = true := by
  induction ni with
  | zero => omega
  | succ k ih =>
    rw [gaLoop_succ]
    rcases Nat.eq_zero_or_pos k with rfl | hk
    · rw [gaLoop_zero]
      exact gaIter_current_best_isSome genOff mutFn n save_interval 0 s hn hpop
    · exact gaIter_current_best_preserved genOff mutFn n save_interval k _ (ih hk)

/-- C9.  Driver run without a population file: the `current_best`
pointer dereferenced by the final `current_best->save(...)` has been
assigned (points at a population member) exactly when at least one
generation-loop iteration ran, i.e. iff `NUM_ITERATIONS ≥ 1`; with
`NUM_ITERATIONS = 0` the model's `none` mirrors the uninitialised
pointer being read. -/
theorem current_best_defined_iff (fileAt : String → PopulationFile)
    (initGen : List Chromosome × List Chromosome)
    (genOff mutFn : List Chromosome → List Chromosome)
    (num_genes n num_iterations save_interval : Nat)
    (hn : 1 ≤ n) (hpop : initGen.1 ≠ []) :
    ((gaDriver (Except.ok "") fileAt initGen genOff mutFn
        num_genes n num_iterations save_interval).current_best_at_save).isSome =
      true ↔ 1 ≤ num_iterations := by
  have hred : (gaDriver (Except.ok "") fileAt initGen genOff mutFn
      num_genes n num_iterations save_interval).current_best_at_save =
      (gaLoop genOff mutFn n save_interval num_iterations
        { population := select_survivors n initGen.1 initGen.2 []
          mutants := [] }).current_best := rfl
  rw [hred]
  have hpop0 : (select_survivors n initGen.1 initGen.2 [] : List Chromosome) ≠ [] :=
    select_survivors_ne_nil n hn initGen.1 initGen.2 [] hpop
  constructor
  · intro h
    rcases Nat.eq_zero_or_pos num_iterations with rfl | h1
    · rw [gaLoop_zero] at h
      simp at h
    · exact h1
  · intro h
    exact gaLoop_current_best_isSome genOff mutFn n save_interval
      num_iterations _ hn hpop0 h

/-- Witness for C9: one iteration over a singleton initial population
leaves `current_best` assigned. -/
theorem current_best_defined_iff_witness :
    ((gaDriver (Except.ok "") (fun _ => ⟨0, 0, []⟩)
        ([⟨[], 0, ChromosomeType.INITIAL, 7⟩], []) (fun _ => []) (fun _ => [])
        3 1 1 2).current_best_at_save).isSome = true ↔ 1 ≤ 1 :=
  current_best_defined_iff (fun _ => ⟨0, 0, []⟩)
    ([⟨[], 0, ChromosomeType.INITIAL, 7⟩], []) (fun _ => []) (fun _ => [])
    3 1 1 2 (by decide) (by decide)

/-- C4, counterexample.  A population file whose header `gene_count` is
4 (its two records carry 4 genes each) while the chromosome's
compile-time gene count is 3, but whose chromosome count 2 equals
`NUM_POPULATION_TO_KEEP = 2`: the driver neither prints
"Incompatible population." nor exits early — it runs a full
generation, because `main` compares only `population_vector.size()`
with `NUM_POPULATION_TO_KEEP` and never consults any gene count. -/
theorem gene_count_mismatch_not_detected :
    (PopulationFile.mk 2 4
        [⟨[0, 0, 0, 0], 0, ChromosomeType.INITIAL, 1⟩,
          ⟨[0, 0, 0, 0], 0, ChromosomeType.INITIAL, 2⟩]).gene_count ≠ 3 ∧
    (gaDriver (Except.ok "pop.bin")
        (fun _ => PopulationFile.mk 2 4
          [⟨[0, 0, 0, 0], 0, ChromosomeType.INITIAL, 1⟩,
            ⟨[0, 0, 0, 0], 0, ChromosomeType.INITIAL, 2⟩])
        ([], []) (fun _ => []) (fun _ => []) 3 2 1 1).output ≠
      ["Incompatible population."] ∧
    (gaDriver (Except.ok "pop.bin")
        (fun _ => PopulationFile.mk 2 4
          [⟨[0, 0, 0, 0], 0, ChromosomeType.INITIAL, 1⟩,
            ⟨[0, 0, 0, 0], 0, ChromosomeType.INITIAL, 2⟩])
        ([], []) (fun _ => []) (fun _ => []) 3 2 1 1).exit_code = none ∧
    (gaDriver (Except.ok "pop.bin")
        (fun _ => PopulationFile.mk 2 4
          [⟨[0, 0, 0, 0], 0, ChromosomeType.INITIAL, 1⟩,
            ⟨[0, 0, 0, 0], 0, ChromosomeType.INITIAL, 2⟩])
        ([], []) (fun _ => []) (fun _ => []) 3 2 1 1).generations_run = 1 := by
  refine ⟨by decide, by decide, rfl, rfl⟩

/-- C4, amended.  A population file whose chromosome count differs from
`NUM_POPULATION_TO_KEEP` makes the driver print
"Incompatible population." and exit with code 0 before any generation
runs; the count is the only compatibility condition the driver checks. -/
theorem incompatible_population_size (path : String)
    (fileAt : String → PopulationFile)
    (initGen : List Chromosome × List Chromosome)
    (genOff mutFn : List Chromosome → List Chromosome)
    (num_genes n num_iterations save_interval : Nat)
    (hpath : path ≠ "")
    (hlen : n ≠ (load_population (fileAt path)).length) :
    (gaDriver (Except.ok path) fileAt initGen genOff mutFn
        num_genes n num_iterations save_interval).output =
      ["Incompatible population."] ∧
    (gaDriver (Except.ok path) fileAt initGen genOff mutFn
        num_genes n num_iterations save_interval).exit_code = some 0 ∧
    (gaDriver (Except.ok path) fileAt initGen genOff mutFn
        num_genes n num_iterations save_interval).generations_run = 0 := by
  simp only [gaDriver]
  rw [if_pos ⟨hpath, hlen⟩]
  exact ⟨rfl, rfl, rfl⟩

/-- Witness for C4 (amended): a file holding one chromosome against
`NUM_POPULATION_TO_KEEP = 2`. -/
theorem incompatible_population_size_witness :
    (gaDriver (Except.ok "pop.bin")
        (fun _ => PopulationFile.mk 1 3 [⟨[0, 0, 0], 0, ChromosomeType.INITIAL, 0⟩])
        ([], []) (fun _ => []) (fun _ => []) 3 2 5 1).output =
      ["Incompatible population."] ∧
    (gaDriver (Except.ok "pop.bin")
        (fun _ => PopulationFile.mk 1 3 [⟨[0, 0, 0], 0, ChromosomeType.INITIAL, 0⟩])
        ([], []) (fun _ => []) (fun _ => []) 3 2 5 1).exit_code = some 0 ∧
    (gaDriver (Except.ok "pop.bin")
        (fun _ => PopulationFile.mk 1 3 [⟨[0, 0, 0], 0, ChromosomeType.INITIAL, 0⟩])
        ([], []) (fun _ => []) (fun _ => []) 3 2 5 1).generations_run = 0 :=
  incompatible_population_size "pop.bin"
    (fun _ => PopulationFile.mk 1 3 [⟨[0, 0, 0], 0, ChromosomeType.INITIAL, 0⟩])
    ([], []) (fun _ => []) (fun _ => []) 3 2 5 1 (by decide) (by decide)

/-- C5, counterexample.  When argument parsing throws, the catch block
in `main` calls `exit(0)`: the process exit code is 0, not non-zero as
the claim states. -/
theorem parse_failure_exit_code_zero :
    (gaDriver (Except.error "unrecognised arguments") (fun _ => ⟨0, 0, []⟩)
        ([], []) (fun _ => []) (fun _ => []) 3 2 1 1).exit_code = some 0 := rfl

/-- C5, amended.  Every invocation whose arguments fail to parse makes
the driver print the error and the help text and exit with code 0 (the
`catch` block ends in `exit(0)`), running no generation. -/
theorem parse_failure_exits_zero (msg : String)
    (fileAt : String → PopulationFile)
    (initGen : List Chromosome × List Chromosome)
    (genOff mutFn : List Chromosome → List Chromosome)
    (num_genes n num_iterations save_interval : Nat) :
    (gaDriver (Except.error msg) fileAt initGen genOff mutFn
        num_genes n num_iterations save_interval).exit_code = some 0 ∧
    (gaDriver (Except.error msg) fileAt initGen genOff mutFn
        num_genes n num_iterations save_interval).generations_run = 0 ∧
    (gaDriver (Except.error msg) fileAt initGen genOff mutFn
        num_genes n num_iterations save_interval).output =
      [msg, "usage: static-genetic-algorithm [-p POPULATION]"] :=
  ⟨rfl, rfl, rfl⟩
